import Mathlib

/-!
Verification of the aggregation handler of the application-metrics service
(source: src/lambdas/applications/function_post.py).

The handler parses a pair of YYYY-MM-DD date strings, renders them in the
Common Log Format used as the store's range key
(dd/Mon/yyyy:HH:MM:SS followed by a UTC offset suffix), rejects ranges whose
rendered start exceeds the rendered end, queries the store partition for the
application between the two rendered bounds, and tallies the fetched records
per calendar day, failing the whole call if any fetched record's timestamp
does not parse back.

The embedding below translates that handler into pure Lean functions:
strings are Lean strings, the store is an explicit list of records together
with a page cutoff and an infrastructure-failure flag, and the handler
returns an Except value mirroring the JSON-tagged exceptions the source
raises.
-/

/-- A calendar date, as produced by the source's date parsing. -/
structure Date where
  year : Nat
  month : Nat
  day : Nat
deriving Repr, DecidableEq

/-- Leap-year rule of the proleptic Gregorian calendar used by the source's
datetime library. -/
def isLeapYear (y : Nat) : Bool :=
  (y % 4 == 0 && y % 100 != 0) || (y % 400 == 0)

/-- Number of days in a month, as enforced by the datetime constructor. -/
def daysInMonth (y m : Nat) : Nat :=
  if m == 2 then (if isLeapYear y then 29 else 28)
  else if m == 4 || m == 6 || m == 9 || m == 11 then 30
  else 31

/-- Split a character list at every occurrence of a separator character,
mirroring how the fixed-format date patterns cut the input at their literal
separators. -/
def splitOnChar (c : Char) : List Char → List (List Char)
  | [] => [[]]
  | x :: xs =>
    match splitOnChar c xs with
    | [] => if x = c then [[], [x]] else [[x]]
    | y :: ys => if x = c then [] :: y :: ys else (x :: y) :: ys

/-- Numeric value of a list of decimal digit characters. -/
def digitsToNat (l : List Char) : Nat :=
  l.foldl (fun a c => a * 10 + (c.toNat - 48)) 0

/-- True when every character is a decimal digit. -/
def allDigits (l : List Char) : Bool :=
  l.all fun c => c.isDigit

/-- Lexicographic comparison of character lists by code point. -/
def listLtB : List Char → List Char → Bool
  | [], [] => false
  | [], _ :: _ => true
  | _ :: _, [] => false
  | c :: cs, d :: ds =>
    if c.toNat < d.toNat then true
    else if d.toNat < c.toNat then false
    else listLtB cs ds

/-- Lexical order on strings, code point by code point: the order used by
the store's range-key comparison and by the source language's string
comparison operator. -/
def strLtB (a b : String) : Bool := listLtB a.data b.data

/-- Parse of the source's strptime(s, the year-month-day pattern): a
four-digit year, a dash, a one-or-two-digit month, a dash, a one-or-two-digit
day, with nothing left over; the month must be 1..12 and the day 1..31 at the
pattern level, and the datetime constructor then requires year at least 1 and
the day to fit the month. -/
def parseYMD (s : String) : Option Date :=
  match splitOnChar '-' s.data with
  | [ys, ms, ds] =>
    if allDigits ys && ys.length == 4
        && allDigits ms && (ms.length == 1 || ms.length == 2)
        && allDigits ds && (ds.length == 1 || ds.length == 2) then
      let y := digitsToNat ys
      let m := digitsToNat ms
      let d := digitsToNat ds
      if 1 ≤ m && m ≤ 12 && 1 ≤ d && d ≤ 31 && 1 ≤ y && d ≤ daysInMonth y m then
        some ⟨y, m, d⟩
      else none
    else none
  | _ => none

/-- Render a natural number as decimal digits, zero-padded to width two, as
strftime does for day, hour, minute and second fields. -/
def pad2 (n : Nat) : String :=
  if n < 10 then "0" ++ Nat.repr n else Nat.repr n

/-- Render a natural number as decimal digits, zero-padded to width four, as
strftime does for the year field. -/
def pad4 (n : Nat) : String :=
  if n < 10 then "000" ++ Nat.repr n
  else if n < 100 then "00" ++ Nat.repr n
  else if n < 1000 then "0" ++ Nat.repr n
  else Nat.repr n

/-- English three-letter month abbreviation used by strftime's month-name
field in the C locale. Months outside 1..12 never reach this function on the
rendering path. -/
def monthAbbrev : Nat → String
  | 1 => "Jan" | 2 => "Feb" | 3 => "Mar" | 4 => "Apr"
  | 5 => "May" | 6 => "Jun" | 7 => "Jul" | 8 => "Aug"
  | 9 => "Sep" | 10 => "Oct" | 11 => "Nov" | 12 => "Dec"
  | _ => ""

/-- The date part of the Common Log Format timestamp: day, month name, year
and the colon that separates the date from the time of day. -/
def clfDatePart (d : Date) : String :=
  pad2 d.day ++ "/" ++ monthAbbrev d.month ++ "/" ++ pad4 d.year ++ ":"

/-- The time-of-day part of the Common Log Format timestamp followed by the
fixed UTC offset suffix the handler appends. -/
def timeSuffix (h m s : Nat) : String :=
  pad2 h ++ ":" ++ pad2 m ++ ":" ++ pad2 s ++ " +0000"

/-- The full Common Log Format timestamp the handler writes into its query
bounds: date part then time part. -/
def clfTimestamp (d : Date) (h m s : Nat) : String :=
  clfDatePart d ++ timeSuffix h m s

/-- Rendered start bound: the parsed start date at the start-of-day time. -/
def startTimestamp (d : Date) : String := clfTimestamp d 0 0 0

/-- Rendered end bound: the parsed end date with the time replaced by
23:59:59 (the source also sets microsecond 999999, which the second-granular
format does not render). -/
def endTimestamp (d : Date) : String := clfTimestamp d 23 59 59

/-- Render a date back to YYYY-MM-DD form, as the tally loop's strftime
does. -/
def formatYMD (d : Date) : String :=
  pad4 d.year ++ "-" ++ pad2 d.month ++ "-" ++ pad2 d.day

/-- Month number from a three-letter abbreviation; the strptime month-name
pattern matches case-insensitively. -/
def monthFromAbbrev (l : List Char) : Option Nat :=
  let low := l.map Char.toLower
  if low = "jan".data then some 1
  else if low = "feb".data then some 2
  else if low = "mar".data then some 3
  else if low = "apr".data then some 4
  else if low = "may".data then some 5
  else if low = "jun".data then some 6
  else if low = "jul".data then some 7
  else if low = "aug".data then some 8
  else if low = "sep".data then some 9
  else if low = "oct".data then some 10
  else if low = "nov".data then some 11
  else if low = "dec".data then some 12
  else none

/-- Python's slicing s up to index minus six: drop the final six characters
(the offset suffix), yielding the empty string when s is shorter. -/
def dropLast6 (s : String) : String :=
  ⟨s.data.take (s.data.length - 6)⟩

/-- Parse of the tally loop's strptime over the Common Log Format date-time
pattern: one-or-two-digit day, slash, month name, slash, four-digit year,
colon, then hour, minute and second each one or two digits, nothing left
over. Hours are limited to 23 and minutes to 59 at the pattern level; the
datetime constructor then requires year at least 1, seconds at most 59 and
the day to fit the month. -/
def parseCLF (s : String) : Option Date :=
  match splitOnChar '/' s.data with
  | [ds, mons, rest] =>
    match splitOnChar ':' rest with
    | [ys, hs, mins, secs] =>
      match monthFromAbbrev mons with
      | none => none
      | some m =>
        if allDigits ds && (ds.length == 1 || ds.length == 2)
            && allDigits ys && ys.length == 4
            && allDigits hs && (hs.length == 1 || hs.length == 2)
            && allDigits mins && (mins.length == 1 || mins.length == 2)
            && allDigits secs && (secs.length == 1 || secs.length == 2) then
          let d := digitsToNat ds
          let y := digitsToNat ys
          let hh := digitsToNat hs
          let mi := digitsToNat mins
          let ss := digitsToNat secs
          if 1 ≤ d && d ≤ 31 && hh ≤ 23 && mi ≤ 59 && ss ≤ 59
              && 1 ≤ y && d ≤ daysInMonth y m then
            some ⟨y, m, d⟩
          else none
        else none
    | _ => none
  | _ => none

/-- A stored event record; the aggregation path reads only the partition key
and the range key. -/
structure Record where
  application : String
  created_at : String
deriving Repr, DecidableEq

/-- The store as the handler observes it: its records, the page cutoff after
which the query response stops and hands back a continuation token (none
means everything fits in one page), and a flag modelling an
infrastructure failure of the query call. -/
structure Store where
  records : List Record
  pageLimit : Option Nat
  queryFails : Bool
deriving Repr, DecidableEq

/-- The invocation payload the handler reads. -/
structure Event where
  application : String
  start_date : String
  end_date : String
deriving Repr, DecidableEq

/-- The tagged error payload the source raises, a JSON object with a type
tag and a message. -/
structure ErrorInfo where
  type : String
  message : String
deriving Repr, DecidableEq

/-- The records satisfying the query's key condition: equal partition key
and range key lexically between the two bounds, both ends inclusive. -/
def matchingRecords (records : List Record) (app startTs endTs : String) : List Record :=
  records.filter fun r =>
    r.application == app
      && !strLtB r.created_at startTs
      && !strLtB endTs r.created_at

/-- The item list of the single query response the handler consumes: the
matching records, truncated to the first page when the store paginates. -/
def queryItems (s : Store) (app startTs endTs : String) : List Record :=
  match s.pageLimit with
  | none => matchingRecords s.records app startTs endTs
  | some n => (matchingRecords s.records app startTs endTs).take n

/-- Increment the counter for a key in the insertion-ordered tally,
appending the key with count one when absent. -/
def bump : List (String × Nat) → String → List (String × Nat)
  | [], k => [(k, 1)]
  | (k', v) :: rest, k =>
    if k' = k then (k', v + 1) :: rest else (k', v) :: bump rest k

/-- The tally loop: for each fetched item, strip the offset suffix, parse
the timestamp back, and bump that calendar day's counter; any parse failure
aborts the loop with the source's tally error. -/
def tallyItems : List Record → List (String × Nat) → Except ErrorInfo (List (String × Nat))
  | [], acc => .ok acc
  | r :: rest, acc =>
    match parseCLF (dropLast6 r.created_at) with
    | none => .error ⟨"UnknownException", "Something went wrong with tallying dates."⟩
    | some d => tallyItems rest (bump acc (formatYMD d))

/-- The aggregation handler: parse both dates (any failure raises the
validation error), reject when the rendered start exceeds the rendered end,
query the store between the rendered bounds (an infrastructure failure
raises the database error), then tally the returned items per day. -/
def handler (ev : Event) (s : Store) : Except ErrorInfo (List (String × Nat)) :=
  match parseYMD ev.start_date, parseYMD ev.end_date with
  | some sd, some ed =>
    if strLtB (endTimestamp ed) (startTimestamp sd) then
      .error ⟨"ValidationException", "The start date is further in the future than the end date."⟩
    else if s.queryFails then
      .error ⟨"UnknownException", "Something went wrong with the database."⟩
    else
      tallyItems (queryItems s ev.application (startTimestamp sd) (endTimestamp ed)) []
  | _, _ => .error ⟨"ValidationException", "Your values are incorrect."⟩

/-- Chronological order on calendar dates, non-strict. -/
def chronLe (a b : Date) : Bool :=
  decide (a.year < b.year)
    || (decide (a.year = b.year)
        && (decide (a.month < b.month)
            || (decide (a.month = b.month) && decide (a.day ≤ b.day))))

/-- Chronological order on calendar dates, strict. -/
def chronLt (a b : Date) : Bool :=
  chronLe a b && !decide (a = b)

/-- A store operation the handler can issue. The aggregation path only ever
issues the read operation; the write operation exists in the write path of
the service, outside this component. -/
inductive StoreOp where
  | query (application startTs endTs : String)
  | putItem (r : Record)
deriving Repr, DecidableEq

/-- Effect of a store operation on the store contents: a query leaves the
store untouched, a put appends the record. -/
def applyOp (s : Store) : StoreOp → Store
  | .query _ _ _ => s
  | .putItem r => ⟨s.records ++ [r], s.pageLimit, s.queryFails⟩

/-- The sequence of store operations the handler issues on a run: nothing
when validation fails, and exactly one range query otherwise. -/
def handlerTrace (ev : Event) : List StoreOp :=
  match parseYMD ev.start_date, parseYMD ev.end_date with
  | some sd, some ed =>
    if strLtB (endTimestamp ed) (startTimestamp sd) then []
    else [.query ev.application (startTimestamp sd) (endTimestamp ed)]
  | _, _ => []

/-! Helper lemmas about the lexicographic comparison. -/

theorem listLtB_irrefl : ∀ l : List Char, listLtB l l = false
  | [] => rfl
  | c :: cs => by simp [listLtB, Nat.lt_irrefl, listLtB_irrefl cs]

theorem listLtB_append_left : ∀ (p a b : List Char),
    listLtB (p ++ a) (p ++ b) = listLtB a b
  | [], _, _ => rfl
  | c :: p, a, b => by
    simp [listLtB, Nat.lt_irrefl, listLtB_append_left p a b]

theorem listLtB_append_mono (a : List Char) : ∀ (b x y : List Char),
    listLtB a b = false → a.length = b.length → listLtB x y = false →
    listLtB (a ++ x) (b ++ y) = false := by
  induction a with
  | nil =>
    intro b x y h1 h2 h3
    cases b with
    | nil => simpa using h3
    | cons d ds => simp at h2
  | cons c cs ih =>
    intro b x y h1 h2 h3
    cases b with
    | nil => simp at h2
    | cons d ds =>
      simp only [listLtB, List.cons_append] at h1 ⊢
      by_cases hcd : c.toNat < d.toNat
      · simp [hcd] at h1
      · by_cases hdc : d.toNat < c.toNat
        · simp [hcd, hdc]
        · simp only [if_neg hcd, if_neg hdc] at h1 ⊢
          exact ih ds x y h1 (by simpa using h2) h3

theorem pad2_facts_24 : ∀ n, n < 24 →
    listLtB (pad2 n).data (pad2 0).data = false ∧
    listLtB (pad2 23).data (pad2 n).data = false ∧
    (pad2 n).data.length = 2 := by decide

theorem pad2_facts_60 : ∀ n, n < 60 →
    listLtB (pad2 n).data (pad2 0).data = false ∧
    listLtB (pad2 59).data (pad2 n).data = false ∧
    (pad2 n).data.length = 2 := by decide

/-- Within one calendar day, no rendered instant compares lexically below
the rendered start-of-day instant. -/
theorem clf_not_lt_start (d : Date) (hh mi ss : Nat)
    (h1 : hh < 24) (h2 : mi < 60) (h3 : ss < 60) :
    strLtB (clfTimestamp d hh mi ss) (clfTimestamp d 0 0 0) = false := by
  have f24 := pad2_facts_24 hh h1
  have f60m := pad2_facts_60 mi h2
  have f60s := pad2_facts_60 ss h3
  have f0 := pad2_facts_24 0 (by omega)
  simp only [strLtB, clfTimestamp, timeSuffix, String.data_append, List.append_assoc]
  rw [listLtB_append_left]
  refine listLtB_append_mono _ _ _ _ f24.1 (f24.2.2.trans f0.2.2.symm) ?_
  rw [listLtB_append_left]
  refine listLtB_append_mono _ _ _ _ f60m.1 (f60m.2.2.trans f0.2.2.symm) ?_
  rw [listLtB_append_left]
  exact listLtB_append_mono _ _ _ _ f60s.1 (f60s.2.2.trans f0.2.2.symm) (listLtB_irrefl _)

/-- Within one calendar day, the rendered end-of-day instant is never
lexically below any rendered instant of that day. -/
theorem clf_not_gt_end (d : Date) (hh mi ss : Nat)
    (h1 : hh < 24) (h2 : mi < 60) (h3 : ss < 60) :
    strLtB (clfTimestamp d 23 59 59) (clfTimestamp d hh mi ss) = false := by
  have f24 := pad2_facts_24 hh h1
  have f60m := pad2_facts_60 mi h2
  have f60s := pad2_facts_60 ss h3
  have f23 := pad2_facts_24 23 (by omega)
  have f59 := pad2_facts_60 59 (by omega)
  simp only [strLtB, clfTimestamp, timeSuffix, String.data_append, List.append_assoc]
  rw [listLtB_append_left]
  refine listLtB_append_mono _ _ _ _ f24.2.1 (f23.2.2.trans f24.2.2.symm) ?_
  rw [listLtB_append_left]
  refine listLtB_append_mono _ _ _ _ f60m.2.1 (f59.2.2.trans f60m.2.2.symm) ?_
  rw [listLtB_append_left]
  exact listLtB_append_mono _ _ _ _ f60s.2.1 (f59.2.2.trans f60s.2.2.symm) (listLtB_irrefl _)

/-! Helper lemmas about the handler's control flow and the tally loop. -/

theorem handler_of_parse_fail (ev : Event) (s : Store)
    (h : parseYMD ev.start_date = none ∨ parseYMD ev.end_date = none) :
    handler ev s = .error ⟨"ValidationException", "Your values are incorrect."⟩ := by
  unfold handler
  cases hps : parseYMD ev.start_date with
  | none => rfl
  | some sd =>
    cases hpe : parseYMD ev.end_date with
    | none => rfl
    | some ed =>
      rcases h with h | h
      · rw [hps] at h; cases h
      · rw [hpe] at h; cases h

theorem handler_of_ok_path (ev : Event) (s : Store) (sd ed : Date)
    (hs : parseYMD ev.start_date = some sd) (he : parseYMD ev.end_date = some ed)
    (hrange : strLtB (endTimestamp ed) (startTimestamp sd) = false)
    (hq : s.queryFails = false) :
    handler ev s
      = tallyItems (queryItems s ev.application (startTimestamp sd) (endTimestamp ed)) [] := by
  unfold handler
  rw [hs, he]
  simp [hrange, hq]

theorem handler_of_range_fail (ev : Event) (s : Store) (sd ed : Date)
    (hs : parseYMD ev.start_date = some sd) (he : parseYMD ev.end_date = some ed)
    (hr : strLtB (endTimestamp ed) (startTimestamp sd) = true) :
    handler ev s
      = .error ⟨"ValidationException",
          "The start date is further in the future than the end date."⟩ := by
  unfold handler
  rw [hs, he]
  simp [hr]

theorem handler_of_store_fail (ev : Event) (s : Store) (sd ed : Date)
    (hs : parseYMD ev.start_date = some sd) (he : parseYMD ev.end_date = some ed)
    (hr : strLtB (endTimestamp ed) (startTimestamp sd) = false)
    (hq : s.queryFails = true) :
    handler ev s
      = .error ⟨"UnknownException", "Something went wrong with the database."⟩ := by
  unfold handler
  rw [hs, he]
  simp [hr, hq]

theorem tallyItems_error_of_mem : ∀ (items : List Record) (acc : List (String × Nat))
    (r : Record), r ∈ items → parseCLF (dropLast6 r.created_at) = none →
    tallyItems items acc
      = .error ⟨"UnknownException", "Something went wrong with tallying dates."⟩ := by
  intro items
  induction items with
  | nil => intro acc r hr _; cases hr
  | cons head rest ih =>
    intro acc r hr hbad
    rcases List.mem_cons.mp hr with h | h
    · subst h
      simp [tallyItems, hbad]
    · cases hp : parseCLF (dropLast6 head.created_at) with
      | none => simp [tallyItems, hp]
      | some d =>
        simp only [tallyItems, hp]
        exact ih _ r h hbad

theorem tallyItems_error_eq : ∀ (items : List Record) (acc : List (String × Nat))
    (e : ErrorInfo), tallyItems items acc = .error e →
    e = ⟨"UnknownException", "Something went wrong with tallying dates."⟩ := by
  intro items
  induction items with
  | nil => intro acc e h; cases h
  | cons head rest ih =>
    intro acc e h
    cases hp : parseCLF (dropLast6 head.created_at) with
    | none =>
      simp only [tallyItems, hp] at h
      cases h
      rfl
    | some d =>
      simp only [tallyItems, hp] at h
      exact ih _ e h

theorem bump_sum (m : List (String × Nat)) (k : String) :
    ((bump m k).map Prod.snd).sum = (m.map Prod.snd).sum + 1 := by
  induction m with
  | nil => rfl
  | cons kv rest ih =>
    by_cases h : kv.1 = k
    · simp [bump, h]
      omega
    · simp [bump, h, ih]
      omega

theorem bump_pos (m : List (String × Nat)) (k : String)
    (h : ∀ kv ∈ m, 1 ≤ kv.2) : ∀ kv ∈ bump m k, 1 ≤ kv.2 := by
  induction m with
  | nil =>
    intro kv hkv
    have hb : bump [] k = [(k, 1)] := rfl
    rw [hb] at hkv
    rcases List.mem_cons.mp hkv with h1 | h1
    · subst h1; simp
    · cases h1
  | cons kv0 rest ih =>
    obtain ⟨k0, v0⟩ := kv0
    intro kv hkv
    by_cases h0 : k0 = k
    · have hb : bump ((k0, v0) :: rest) k = (k0, v0 + 1) :: rest := by simp [bump, h0]
      rw [hb] at hkv
      rcases List.mem_cons.mp hkv with h1 | h1
      · subst h1; simp
      · exact h kv (List.mem_cons_of_mem _ h1)
    · have hb : bump ((k0, v0) :: rest) k = (k0, v0) :: bump rest k := by simp [bump, h0]
      rw [hb] at hkv
      rcases List.mem_cons.mp hkv with h1 | h1
      · subst h1; exact h (k0, v0) (by simp)
      · exact ih (fun x hx => h x (List.mem_cons_of_mem _ hx)) kv h1

theorem tallyItems_ok : ∀ (items : List Record) (acc res : List (String × Nat)),
    tallyItems items acc = .ok res →
    ((res.map Prod.snd).sum = (acc.map Prod.snd).sum + items.length
      ∧ ((∀ kv ∈ acc, 1 ≤ kv.2) → ∀ kv ∈ res, 1 ≤ kv.2)) := by
  intro items
  induction items with
  | nil =>
    intro acc res h
    cases h
    simp
  | cons head rest ih =>
    intro acc res h
    cases hp : parseCLF (dropLast6 head.created_at) with
    | none => simp [tallyItems, hp] at h
    | some d =>
      simp only [tallyItems, hp] at h
      have := ih (bump acc (formatYMD d)) res h
      constructor
      · rw [this.1, bump_sum]
        simp
        omega
      · intro hacc
        exact this.2 (bump_pos _ _ hacc)

theorem handlerTrace_foldl (ev : Event) (s : Store) :
    (handlerTrace ev).foldl applyOp s = s := by
  unfold handlerTrace
  cases parseYMD ev.start_date with
  | none => rfl
  | some sd =>
    cases parseYMD ev.end_date with
    | none => rfl
    | some ed =>
      by_cases h : strLtB (endTimestamp ed) (startTimestamp sd) = true
      · simp [h]
      · simp [h, applyOp]

/-! Claim theorems. -/

/-- C1: the claim fails on the code. The handler's rendering of calendar
instants into the store's timestamp format does not preserve
lexical-order-equals-chronological-order: 2023-01-02 is chronologically
before 2023-02-01, yet its rendered start-of-day timestamp
02/Jan/2023:00:00:00 +0000 is lexically greater than the rendering
01/Feb/2023:00:00:00 +0000 of the later instant, because the format puts
the day first and spells the month as a name. -/
theorem C1_clf_order_violation :
    chronLe ⟨2023, 1, 2⟩ ⟨2023, 2, 1⟩ = true
      ∧ startTimestamp ⟨2023, 1, 2⟩ = "02/Jan/2023:00:00:00 +0000"
      ∧ startTimestamp ⟨2023, 2, 1⟩ = "01/Feb/2023:00:00:00 +0000"
      ∧ strLtB (startTimestamp ⟨2023, 2, 1⟩) (startTimestamp ⟨2023, 1, 2⟩) = true :=
  ⟨rfl, rfl, rfl, rfl⟩

/-- C2: the claim fails on the code. On the spec's own scenario
Aggregate(app1, 2023-02-01, 2023-01-01), both dates parse and the start
date is a strictly later calendar date than the end date, yet the handler
does not raise the validation error: the rendered start
01/Feb/2023:00:00:00 +0000 compares lexically below the rendered end
01/Jan/2023:23:59:59 +0000, so the range check passes and the call
returns an (empty) tally. -/
theorem C2_start_after_end_accepted :
    chronLt ⟨2023, 1, 1⟩ ⟨2023, 2, 1⟩ = true
      ∧ parseYMD "2023-02-01" = some ⟨2023, 2, 1⟩
      ∧ parseYMD "2023-01-01" = some ⟨2023, 1, 1⟩
      ∧ handler ⟨"app1", "2023-02-01", "2023-01-01"⟩ ⟨[], none, false⟩ = .ok [] :=
  ⟨rfl, rfl, rfl, rfl⟩

/-- C3: the claim fails on the code. For the valid range
2023-01-01 .. 2023-02-28 and a store holding one record stamped
02/Mar/2023:12:00:00 +0000, the lexical between-query admits the record
(0 sorts below 2 of 28/Feb) and the successful result maps the key
2023-03-02, a date strictly after the end of the requested range. -/
theorem C3_key_outside_range :
    chronLe ⟨2023, 1, 1⟩ ⟨2023, 2, 28⟩ = true
      ∧ handler ⟨"app1", "2023-01-01", "2023-02-28"⟩
          ⟨[⟨"app1", "02/Mar/2023:12:00:00 +0000"⟩], none, false⟩
        = .ok [("2023-03-02", 1)]
      ∧ chronLt ⟨2023, 2, 28⟩ ⟨2023, 3, 2⟩ = true :=
  ⟨rfl, rfl, rfl⟩

/-- C4: the claim fails on the code. The handler issues a single query call
and never follows the continuation token: with two records of the day
matching the key condition but a page cutoff of one, the returned tally
counts a single event even though two records match. -/
theorem C4_pagination_not_drained :
    handler ⟨"app1", "2023-01-01", "2023-01-01"⟩
        ⟨[⟨"app1", "01/Jan/2023:10:00:00 +0000"⟩,
          ⟨"app1", "01/Jan/2023:11:00:00 +0000"⟩], some 1, false⟩
      = .ok [("2023-01-01", 1)]
      ∧ (matchingRecords
          [⟨"app1", "01/Jan/2023:10:00:00 +0000"⟩,
            ⟨"app1", "01/Jan/2023:11:00:00 +0000"⟩]
          "app1" (startTimestamp ⟨2023, 1, 1⟩) (endTimestamp ⟨2023, 1, 1⟩)).length = 2 :=
  ⟨rfl, rfl⟩

/-- C5: whenever either bound fails to parse as a valid calendar date, the
handler fails with the validation-kind error (tag ValidationException in
the source), regardless of store contents. -/
theorem C5_invalid_date_validation_error (ev : Event) (s : Store)
    (h : parseYMD ev.start_date = none ∨ parseYMD ev.end_date = none) :
    handler ev s = .error ⟨"ValidationException", "Your values are incorrect."⟩ :=
  handler_of_parse_fail ev s h

/-- C5 witness: a month 13 start date fails to parse and the handler raises
the validation error even though the store holds a record. -/
theorem C5_witness :
    (parseYMD "2023-13-01" = none ∨ parseYMD "2023-01-01" = none)
      ∧ handler ⟨"app1", "2023-13-01", "2023-01-01"⟩
          ⟨[⟨"app1", "01/Jan/2023:10:00:00 +0000"⟩], none, false⟩
        = .error ⟨"ValidationException", "Your values are incorrect."⟩ :=
  ⟨Or.inl rfl, C5_invalid_date_validation_error _ _ (Or.inl rfl)⟩

/-- C6: counterexample. A failed store query and an uninterpretable fetched
record do not carry distinct tags and neither tag is among the three names
the claim lists: both produce the type tag UnknownException (the
validation path uses ValidationException). -/
theorem C6_error_types_not_distinct :
    handler ⟨"app1", "2023-01-01", "2023-01-01"⟩ ⟨[], none, true⟩
      = .error ⟨"UnknownException", "Something went wrong with the database."⟩
      ∧ handler ⟨"app1", "2023-01-01", "2023-01-01"⟩
          ⟨[⟨"app1", "01/Jan/2023:10:00:0x +0000"⟩], none, false⟩
        = .error ⟨"UnknownException", "Something went wrong with tallying dates."⟩
      ∧ ErrorInfo.type ⟨"UnknownException", "Something went wrong with the database."⟩
        = ErrorInfo.type ⟨"UnknownException", "Something went wrong with tallying dates."⟩ :=
  ⟨rfl, rfl, rfl⟩

/-- C6 amended: every failure of the handler is a tagged error with a type
and a message field; bad input dates yield type ValidationException, while
a failed store query and an uninterpretable fetched record both yield type
UnknownException and are distinguishable only by their messages. -/
theorem C6_amended_error_taxonomy (ev : Event) (s : Store) (e : ErrorInfo)
    (h : handler ev s = .error e) :
    (e.type = "ValidationException"
      ∧ (e.message = "Your values are incorrect."
          ∨ e.message = "The start date is further in the future than the end date."))
    ∨ (e.type = "UnknownException"
      ∧ (e.message = "Something went wrong with the database."
          ∨ e.message = "Something went wrong with tallying dates.")) := by
  cases hps : parseYMD ev.start_date with
  | none =>
    rw [handler_of_parse_fail ev s (Or.inl hps)] at h
    injection h with h2
    subst h2
    exact Or.inl ⟨rfl, Or.inl rfl⟩
  | some sd =>
    cases hpe : parseYMD ev.end_date with
    | none =>
      rw [handler_of_parse_fail ev s (Or.inr hpe)] at h
      injection h with h2
      subst h2
      exact Or.inl ⟨rfl, Or.inl rfl⟩
    | some ed =>
      cases hr : strLtB (endTimestamp ed) (startTimestamp sd) with
      | true =>
        rw [handler_of_range_fail ev s sd ed hps hpe hr] at h
        injection h with h2
        subst h2
        exact Or.inl ⟨rfl, Or.inr rfl⟩
      | false =>
        cases hq : s.queryFails with
        | true =>
          rw [handler_of_store_fail ev s sd ed hps hpe hr hq] at h
          injection h with h2
          subst h2
          exact Or.inr ⟨rfl, Or.inl rfl⟩
        | false =>
          rw [handler_of_ok_path ev s sd ed hps hpe hr hq] at h
          have h3 := tallyItems_error_eq _ _ _ h
          subst h3
          exact Or.inr ⟨rfl, Or.inr rfl⟩

/-- C6 amended witness: the error raised for an unparseable start date has
type ValidationException with the validation message. -/
theorem C6_amended_witness :
    (ErrorInfo.type ⟨"ValidationException", "Your values are incorrect."⟩
        = "ValidationException"
      ∧ (ErrorInfo.message ⟨"ValidationException", "Your values are incorrect."⟩
            = "Your values are incorrect."
          ∨ ErrorInfo.message ⟨"ValidationException", "Your values are incorrect."⟩
            = "The start date is further in the future than the end date."))
    ∨ (ErrorInfo.type ⟨"ValidationException", "Your values are incorrect."⟩
        = "UnknownException"
      ∧ (ErrorInfo.message ⟨"ValidationException", "Your values are incorrect."⟩
            = "Something went wrong with the database."
          ∨ ErrorInfo.message ⟨"ValidationException", "Your values are incorrect."⟩
            = "Something went wrong with tallying dates.")) :=
  C6_amended_error_taxonomy ⟨"app1", "bad-date", "2023-01-01"⟩ ⟨[], none, false⟩
    ⟨"ValidationException", "Your values are incorrect."⟩ rfl

/-- C7: the handler is fail-closed on malformed records: when any record
returned by the query has a created_at that does not parse back from the
store format, the whole call fails with the tally-kind error and no
partial tally is returned. -/
theorem C7_malformed_record_fails_call (ev : Event) (s : Store) (sd ed : Date) (r : Record)
    (hs : parseYMD ev.start_date = some sd) (he : parseYMD ev.end_date = some ed)
    (hrange : strLtB (endTimestamp ed) (startTimestamp sd) = false)
    (hq : s.queryFails = false)
    (hr : r ∈ queryItems s ev.application (startTimestamp sd) (endTimestamp ed))
    (hbad : parseCLF (dropLast6 r.created_at) = none) :
    handler ev s = .error ⟨"UnknownException", "Something went wrong with tallying dates."⟩ := by
  rw [handler_of_ok_path ev s sd ed hs he hrange hq]
  exact tallyItems_error_of_mem _ _ r hr hbad

/-- C7 witness: a record whose seconds field holds a non-digit falls inside
the query window yet fails to parse back, and the call fails whole. -/
theorem C7_witness :
    handler ⟨"app1", "2023-01-01", "2023-01-03"⟩
        ⟨[⟨"app1", "02/Jan/2023:10:00:0x +0000"⟩], none, false⟩
      = .error ⟨"UnknownException", "Something went wrong with tallying dates."⟩ :=
  C7_malformed_record_fails_call _ _ ⟨2023, 1, 1⟩ ⟨2023, 1, 3⟩
    ⟨"app1", "02/Jan/2023:10:00:0x +0000"⟩ rfl rfl rfl rfl (by decide) rfl

/-- C8: a query with start date equal to end date passes the range check
(the handler proceeds straight to querying and tallying, raising no
validation error), and every stored record of the application stamped at
any second of that day — from 00:00:00 through 23:59:59 in the store's
second-granular format — satisfies the inclusive key condition of the
query. -/
theorem C8_single_day_full_coverage (ds : String) (d : Date) (app : String) (s : Store)
    (hparse : parseYMD ds = some d) (hq : s.queryFails = false) (hp : s.pageLimit = none) :
    handler ⟨app, ds, ds⟩ s
        = tallyItems (matchingRecords s.records app (startTimestamp d) (endTimestamp d)) []
      ∧ ∀ r ∈ s.records, r.application = app →
          ∀ hh mi ss2, hh < 24 → mi < 60 → ss2 < 60 →
            r.created_at = clfTimestamp d hh mi ss2 →
            r ∈ matchingRecords s.records app (startTimestamp d) (endTimestamp d) := by
  constructor
  · have hrange : strLtB (endTimestamp d) (startTimestamp d) = false :=
      clf_not_lt_start d 23 59 59 (by omega) (by omega) (by omega)
    have h0 := handler_of_ok_path ⟨app, ds, ds⟩ s d d hparse hparse hrange hq
    rw [h0]
    unfold queryItems
    rw [hp]
  · intro r hr happ hh mi ss2 hhh hmi hss hca
    unfold matchingRecords
    rw [List.mem_filter]
    refine ⟨hr, ?_⟩
    have hlow : strLtB r.created_at (startTimestamp d) = false := by
      rw [hca]
      exact clf_not_lt_start d hh mi ss2 hhh hmi hss
    have hhigh : strLtB (endTimestamp d) r.created_at = false := by
      rw [hca]
      exact clf_not_gt_end d hh mi ss2 hhh hmi hss
    simp [happ, hlow, hhigh]

/-- C8 witness: for the single day 2023-01-15, the handler proceeds to the
tally of the full-day window and a record stamped at 07:30:00 of that day
satisfies the query's key condition. -/
theorem C8_witness :
    handler ⟨"app1", "2023-01-15", "2023-01-15"⟩
        ⟨[⟨"app1", "15/Jan/2023:07:30:00 +0000"⟩], none, false⟩
      = tallyItems
          (matchingRecords [⟨"app1", "15/Jan/2023:07:30:00 +0000"⟩] "app1"
            (startTimestamp ⟨2023, 1, 15⟩) (endTimestamp ⟨2023, 1, 15⟩)) []
      ∧ (⟨"app1", "15/Jan/2023:07:30:00 +0000"⟩ : Record)
        ∈ matchingRecords [⟨"app1", "15/Jan/2023:07:30:00 +0000"⟩] "app1"
            (startTimestamp ⟨2023, 1, 15⟩) (endTimestamp ⟨2023, 1, 15⟩) := by
  have h := C8_single_day_full_coverage "2023-01-15" ⟨2023, 1, 15⟩ "app1"
    ⟨[⟨"app1", "15/Jan/2023:07:30:00 +0000"⟩], none, false⟩ rfl rfl rfl
  exact ⟨h.1, h.2 _ (by simp) rfl 7 30 0 (by omega) (by omega) (by omega) rfl⟩

/-- C9: the handler is read-only and idempotent: replaying its trace of
store operations leaves the store unchanged, and running the handler again
on the store it leaves behind yields the same result. -/
theorem C9_read_only_idempotent (ev : Event) (s : Store) :
    (handlerTrace ev).foldl applyOp s = s
      ∧ handler ev ((handlerTrace ev).foldl applyOp s) = handler ev s := by
  refine ⟨handlerTrace_foldl ev s, ?_⟩
  rw [handlerTrace_foldl ev s]

/-- C10: count conservation: when the handler succeeds, the values of the
returned tally sum to the number of items returned by the store query, and
every value is at least one. -/
theorem C10_count_conservation (ev : Event) (s : Store) (sd ed : Date)
    (res : List (String × Nat))
    (hs : parseYMD ev.start_date = some sd) (he : parseYMD ev.end_date = some ed)
    (hok : handler ev s = .ok res) :
    ((res.map Prod.snd).sum
        = (queryItems s ev.application (startTimestamp sd) (endTimestamp ed)).length)
      ∧ ∀ kv ∈ res, 1 ≤ kv.2 := by
  cases hr : strLtB (endTimestamp ed) (startTimestamp sd) with
  | true =>
    rw [handler_of_range_fail ev s sd ed hs he hr] at hok
    exact Except.noConfusion hok
  | false =>
    cases hq : s.queryFails with
    | true =>
      rw [handler_of_store_fail ev s sd ed hs he hr hq] at hok
      exact Except.noConfusion hok
    | false =>
      rw [handler_of_ok_path ev s sd ed hs he hr hq] at hok
      have h := tallyItems_ok _ _ _ hok
      refine ⟨by simpa using h.1, h.2 ?_⟩
      intro kv hkv
      cases hkv

/-- C10 witness: two same-day records produce the tally with the single
value two, which equals the query item count, and the value is positive. -/
theorem C10_witness :
    (([("2023-01-01", 2)].map Prod.snd).sum
        = (queryItems
            ⟨[⟨"app1", "01/Jan/2023:10:00:00 +0000"⟩,
              ⟨"app1", "01/Jan/2023:11:00:00 +0000"⟩], none, false⟩
            "app1" (startTimestamp ⟨2023, 1, 1⟩) (endTimestamp ⟨2023, 1, 2⟩)).length)
      ∧ 1 ≤ (("2023-01-01", 2) : String × Nat).2 := by
  have h := C10_count_conservation ⟨"app1", "2023-01-01", "2023-01-02"⟩
    ⟨[⟨"app1", "01/Jan/2023:10:00:00 +0000"⟩,
      ⟨"app1", "01/Jan/2023:11:00:00 +0000"⟩], none, false⟩
    ⟨2023, 1, 1⟩ ⟨2023, 1, 2⟩ [("2023-01-01", 2)] rfl rfl rfl
  exact ⟨h.1, h.2 _ (by simp)⟩
